import Mathlib

/-!
# Verification of the `botbuilder-adapter-github` adapter

A shallow embedding of the TypeScript sources of the
`botbuilder-adapter-github` package:

* `src/github_adapter.ts` — the `GithubAdapter` class
  (`getAPI`, `activityToGithub`, `sendActivities`, `updateActivity`,
  `deleteActivity`, `verifySignature`, `processActivity`) and the
  `GithubMessageTypeMiddleware.onTurn` classifier;
* `src/eventtype_middleware.ts` — `GithubEventTypeMiddleware.onTurn`.

JavaScript values that may be `undefined` are modelled with `Option`;
a thrown JavaScript exception is modelled with `Except JsErr`; machine
words inside the hash computation are `Nat` reduced mod `2 ^ 32`.
Mutable adapter fields (`this.octokit`) are threaded as explicit state.
-/

/-- A thrown JavaScript error: `TypeError` (property access on
`undefined`, `Buffer.from(undefined)`), `RangeError`
(`crypto.timingSafeEqual` on buffers of unequal byte length, raised as
`ERR_CRYPTO_TIMING_SAFE_EQUAL_LENGTH`), or `new Error(msg)`. -/
inductive JsErr where
  | typeError
  | rangeError
  | jsError (msg : String)
deriving DecidableEq, Repr

/-- A dynamically typed JavaScript id value: the source stores both
numbers (comment id, issue number) and strings (repository full name,
delivery guid) in the same activity fields. -/
inductive JsId where
  | num (n : Nat)
  | str (s : String)
deriving DecidableEq, Repr

/-- JavaScript truthiness of a possibly-absent string
(`undefined` and `""` are falsy). -/
def jsTruthyStr : Option String → Bool
  | none => false
  | some s => s ≠ ""

/-- JavaScript truthiness of a possibly-absent id value
(`undefined`, `0` and `""` are falsy). -/
def jsTruthyId : Option JsId → Bool
  | none => false
  | some (.num n) => n ≠ 0
  | some (.str s) => s ≠ ""

/-- String coercion JavaScript applies when concatenating a possibly
`undefined` value into a message (`undefined` prints as `"undefined"`). -/
def jsStr : Option String → String
  | none => "undefined"
  | some s => s

/-! ## HMAC-SHA1 (the `crypto.createHmac('sha1', secret)` call)

`verifySignature` computes
`'sha1=' + crypto.createHmac('sha1', secret).update(body).digest('hex')`.
The Node primitives are embedded concretely: UTF-8 encoding of the
input strings, SHA-1 (FIPS 180-1) over byte lists, and HMAC (RFC 2104)
with a 64-byte block, all in `Nat` arithmetic mod `2 ^ 32`. -/

/-- Reduce to a 32-bit word. -/
def w32 (n : Nat) : Nat := n % 4294967296

/-- Rotate a 32-bit word left by `n` bits. -/
def rotl (n x : Nat) : Nat := w32 (x <<< n) ||| (x >>> (32 - n))

/-- SHA-1 round function `f_t`. -/
def sha1F (t b c d : Nat) : Nat :=
  if t < 20 then (b &&& c) ||| ((b ^^^ 4294967295) &&& d)
  else if t < 40 then b ^^^ c ^^^ d
  else if t < 60 then (b &&& c) ||| (b &&& d) ||| (c &&& d)
  else b ^^^ c ^^^ d

/-- SHA-1 round constant `K_t`. -/
def sha1K (t : Nat) : Nat :=
  if t < 20 then 0x5A827999
  else if t < 40 then 0x6ED9EBA1
  else if t < 60 then 0x8F1BBCDC
  else 0xCA62C1D6

/-- Big-endian byte serialisation of `n` into exactly `k` bytes. -/
def natToBytesBE (k n : Nat) : List Nat :=
  match k with
  | 0 => []
  | k + 1 => natToBytesBE k (n / 256) ++ [n % 256]

/-- Group bytes into big-endian 32-bit words. -/
def bytesToWords : List Nat → List Nat
  | b0 :: b1 :: b2 :: b3 :: rest =>
    (((b0 * 256 + b1) * 256 + b2) * 256 + b3) :: bytesToWords rest
  | _ => []

/-- Split a byte list into 64-byte chunks, with explicit fuel so that the
recursion is structural (the fuel is the list length, always enough). -/
def toChunksF : Nat → List Nat → List (List Nat)
  | 0, _ => []
  | _, [] => []
  | fuel + 1, l => l.take 64 :: toChunksF fuel (l.drop 64)

/-- Split a (padded) message into 64-byte chunks. -/
def toChunks (l : List Nat) : List (List Nat) := toChunksF l.length l

/-- Extend the 16 chunk words to the 80 SHA-1 schedule words. -/
def sha1ExtendWords (ws : Array Nat) : Array Nat :=
  (List.range 64).foldl
    (fun a i =>
      let t := i + 16
      a.push (rotl 1 ((a.getD (t - 3) 0) ^^^ (a.getD (t - 8) 0) ^^^
        (a.getD (t - 14) 0) ^^^ (a.getD (t - 16) 0))))
    ws

/-- The five SHA-1 state words. -/
structure Sha1State where
  h0 : Nat
  h1 : Nat
  h2 : Nat
  h3 : Nat
  h4 : Nat
deriving DecidableEq, Repr

/-- Process one 64-byte chunk. -/
def sha1Chunk (st : Sha1State) (chunk : List Nat) : Sha1State :=
  let ws := sha1ExtendWords (bytesToWords chunk).toArray
  let res := (List.range 80).foldl
    (fun (s : Nat × Nat × Nat × Nat × Nat) t =>
      let (a, b, c, d, e) := s
      let temp := w32 (rotl 5 a + sha1F t b c d + e + ws.getD t 0 + sha1K t)
      (temp, a, rotl 30 b, c, d))
    (st.h0, st.h1, st.h2, st.h3, st.h4)
  let (a, b, c, d, e) := res
  ⟨w32 (st.h0 + a), w32 (st.h1 + b), w32 (st.h2 + c),
   w32 (st.h3 + d), w32 (st.h4 + e)⟩

/-- Append the SHA-1 padding: `0x80`, zeros, 8-byte bit length. -/
def sha1Pad (msg : List Nat) : List Nat :=
  let zeros := (64 - ((msg.length + 9) % 64)) % 64
  msg ++ [0x80] ++ List.replicate zeros 0 ++ natToBytesBE 8 (8 * msg.length)

/-- SHA-1 of a byte list, as the 20 digest bytes. -/
def sha1Bytes (msg : List Nat) : List Nat :=
  let iv : Sha1State :=
    ⟨0x67452301, 0xEFCDAB89, 0x98BADCFE, 0x10325476, 0xC3D2E1F0⟩
  let fin := (toChunks (sha1Pad msg)).foldl sha1Chunk iv
  natToBytesBE 4 fin.h0 ++ natToBytesBE 4 fin.h1 ++ natToBytesBE 4 fin.h2 ++
    natToBytesBE 4 fin.h3 ++ natToBytesBE 4 fin.h4

/-- Lower-case hex digit. -/
def hexDigit (n : Nat) : Char :=
  if n < 10 then Char.ofNat (48 + n) else Char.ofNat (87 + n)

/-- Lower-case hex rendering of a byte list (Node `digest('hex')`). -/
def bytesToHex (bs : List Nat) : String :=
  ⟨bs.foldr (fun b acc => hexDigit (b / 16) :: hexDigit (b % 16) :: acc) []⟩

/-- UTF-8 encoding of one character (as Node `Buffer.from(s)` uses). -/
def charUtf8Bytes (c : Char) : List Nat :=
  let n := c.toNat
  if n < 0x80 then [n]
  else if n < 0x800 then [0xC0 + n / 64, 0x80 + n % 64]
  else if n < 0x10000 then
    [0xE0 + n / 4096, 0x80 + (n / 64) % 64, 0x80 + n % 64]
  else
    [0xF0 + n / 262144, 0x80 + (n / 4096) % 64, 0x80 + (n / 64) % 64,
     0x80 + n % 64]

/-- UTF-8 bytes of a string. -/
def strUtf8 (s : String) : List Nat :=
  s.data.foldr (fun c acc => charUtf8Bytes c ++ acc) []

/-- UTF-8 byte length of a string (the byte length of `Buffer.from(s)`). -/
def utf8ByteLen (s : String) : Nat := (strUtf8 s).length

/-- HMAC-SHA1 (RFC 2104) over byte lists, 64-byte block size. -/
def hmacSha1Bytes (key msg : List Nat) : List Nat :=
  let k1 := if key.length > 64 then sha1Bytes key else key
  let k2 := k1 ++ List.replicate (64 - k1.length) 0
  sha1Bytes ((k2.map (fun b => b ^^^ 0x5C)) ++
    sha1Bytes ((k2.map (fun b => b ^^^ 0x36)) ++ msg))

/-- `crypto.createHmac('sha1', secret).update(body).digest('hex')` for
string inputs. -/
def hmacSha1Hex (secret body : String) : String :=
  bytesToHex (hmacSha1Bytes (strUtf8 secret) (strUtf8 body))

/-! ## Data model

The option/request/activity shapes read and written by the adapter.
Fields that JavaScript may leave `undefined` are `Option`s. -/

/-- `GithubAdapterOptions`: configuration passed to the constructor. -/
structure GithubAdapterOptions where
  webhookSecret : Option String := none
  githubToken : Option String := none
deriving DecidableEq, Repr

/-- The (subset of the) GitHub REST client the adapter constructs:
`new Octokit({ auth: token, userAgent: 'Botkit' })`. -/
structure Octokit where
  auth : String
  userAgent : String
deriving DecidableEq, Repr

/-- The adapter's mutable `this.octokit` field, threaded explicitly. -/
structure AdapterState where
  octokit : Option Octokit := none
deriving DecidableEq, Repr

/-- The cached bot identity (`this.identity`), as populated by
`getBotUserFromAPI` from `octokit.users.getAuthenticated()`: the source
declares `user_id` as a string but stores the numeric `user.data.id`. -/
structure Identity where
  user_id : Nat
  login : String
deriving DecidableEq, Repr

/-- A GitHub user object as it appears in webhook payloads
(`comment.user`, `sender`). -/
structure GithubUser where
  id : Nat
  login : String
  type : String
deriving DecidableEq, Repr

/-- The `comment` object of an `issue_comment` payload. -/
structure Comment where
  id : Nat
  body : String
  updated_at : String
  user : GithubUser
deriving DecidableEq, Repr

/-- The `issue` object of a webhook payload. -/
structure Issue where
  number : Nat
deriving DecidableEq, Repr

/-- The `repository` object of a webhook payload. -/
structure Repository where
  full_name : String
deriving DecidableEq, Repr

/-- A webhook payload (`req.body`), restricted to the fields the adapter
and its middlewares dereference; absent JSON fields are `none`.  The
middlewares additionally store their `botkitEventType` annotation on this
object (the activity's `channelData`). -/
structure WebhookPayload where
  comment : Option Comment := none
  issue : Option Issue := none
  repository : Option Repository := none
  sender : Option GithubUser := none
  action : Option String := none
  number : Option Nat := none
  botkitEventType : Option String := none
deriving DecidableEq, Repr

/-- BotBuilder `ActivityTypes` values used by the adapter. -/
inductive ActivityType where
  | message
  | event
deriving DecidableEq, Repr

/-- BotBuilder `RoleTypes` values used by the adapter. -/
inductive Role where
  | user
  | bot
deriving DecidableEq, Repr

/-- A conversation object on an activity.  The `issue_comment` branch of
`processActivity` fills all four fields; the default branch sets only
`id`; `GithubEventTypeMiddleware` back-fills the rest for
`pull_request`/`issues` events. -/
structure Conversation where
  isGroup : Option Bool := none
  conversationType : Option String := none
  id : Option JsId := none
  repo : Option String := none
deriving DecidableEq, Repr

/-- A `from`/`recipient` account on an activity. -/
structure ChannelAccount where
  id : Option String := none
  role : Option Role := none
deriving DecidableEq, Repr

/-- The BotBuilder activity shape this adapter constructs and its
middlewares rewrite.  The source's `from` field is called `fromUser`
(`from` is reserved in Lean); the wall-clock `timestamp` field is
elided.  -/
structure Activity where
  type : ActivityType
  id : Option JsId := none
  channelData : Option WebhookPayload := none
  channelId : Option String := none
  fromUser : Option ChannelAccount := none
  conversation : Option Conversation := none
  recipient : Option ChannelAccount := none
  text : Option String := none
  label : Option String := none
deriving DecidableEq, Repr

/-- An inbound HTTP request as the adapter reads it: parsed JSON body,
raw body (used only by signature verification) and the three headers the
source consults. -/
structure Request where
  body : WebhookPayload := {}
  rawBody : Option String := none
  xHubSignature : Option String := none
  xGithubEvent : Option String := none
  xGithubDelivery : Option String := none
deriving DecidableEq, Repr

/-- The `target` object `activityToGithub` builds from an activity's
conversation. -/
structure GithubTarget where
  type : Option String := none
  id : Option JsId := none
  owner : Option String := none
  repo : Option String := none
deriving DecidableEq, Repr

/-- The outgoing message shape `activityToGithub` returns.  `target`
stays `undefined` when the activity has no conversation; `text` is only
set when the activity's text is truthy. -/
structure GithubMessage where
  activityId : Option JsId := none
  target : Option GithubTarget := none
  text : Option String := none
deriving DecidableEq, Repr

/-- The `data` object of an Octokit REST result. -/
structure OctokitData where
  id : Nat
deriving DecidableEq, Repr

/-- An Octokit REST result: HTTP status plus response data. -/
structure OctokitResult where
  status : Nat
  data : OctokitData
deriving DecidableEq, Repr

/-- Parameters of `octokit.issues.createComment`. -/
structure CreateCommentParams where
  owner : Option String := none
  repo : Option String := none
  issue_number : Option JsId := none
  body : Option String := none
deriving DecidableEq, Repr

/-- Parameters of `octokit.issues.updateComment`. -/
structure UpdateCommentParams where
  owner : Option String := none
  repo : Option String := none
  comment_id : Option JsId := none
  body : Option String := none
deriving DecidableEq, Repr

/-- Parameters of `octokit.issues.deleteComment`. -/
structure DeleteCommentParams where
  owner : Option String := none
  repo : Option String := none
  comment_id : Option JsId := none
deriving DecidableEq, Repr

/-- A record pushed onto the `responses` list by `sendActivities`. -/
structure ResourceResponse where
  id : Nat
  activityId : Option JsId := none
  conversation : Option Conversation := none
deriving DecidableEq, Repr

/-- The conversation reference passed to `deleteActivity`. -/
structure ConversationReference where
  activityId : Option JsId := none
  conversation : Option Conversation := none
deriving DecidableEq, Repr

/-! ## GithubAdapter operations -/

/-- `GithubAdapter.getAPI`.  The source checks `this.octokit` and
otherwise constructs `new Octokit({auth: token, userAgent: 'Botkit'})`
after rejecting a falsy token with `new Error('Missing api token.')`.
It never assigns `this.octokit`, so the state is returned unchanged on
every path. -/
def getAPI (opts : GithubAdapterOptions) (st : AdapterState) :
    Except JsErr (Octokit × AdapterState) :=
  match st.octokit with
  | some c => .ok (c, st)
  | none =>
    if jsTruthyStr opts.githubToken then
      .ok ({ auth := opts.githubToken.getD "", userAgent := "Botkit" }, st)
    else
      .error (.jsError "Missing api token.")

/-- JavaScript `str.split('/')` on a character list: split at every
slash, keeping empty segments (`"o/r"` gives `["o", "r"]`, a string
without a slash gives a single segment, `""` gives `[""]`). -/
def splitSlash : List Char → List (List Char)
  | [] => [[]]
  | c :: cs =>
    let rest := splitSlash cs
    if c = '/' then [] :: rest
    else
      match rest with
      | r :: rs => (c :: r) :: rs
      | [] => [[c]]

/-- `GithubAdapter.activityToGithub`.  When the activity has a
conversation, `activity.conversation.repo.split('/')` throws a
`TypeError` if `repo` is `undefined`; JavaScript's out-of-range array
reads `repoParts[0]`/`repoParts[1]` are the optional list lookups. -/
def activityToGithub (activity : Activity) : Except JsErr GithubMessage :=
  match activity.conversation with
  | none =>
    .ok { activityId := activity.id,
          text := if jsTruthyStr activity.text then activity.text else none }
  | some conv =>
    match conv.repo with
    | none => .error .typeError
    | some repoStr =>
      let repoParts := (splitSlash repoStr.data).map (fun l => (⟨l⟩ : String))
      .ok { activityId := activity.id,
            target := some { type := conv.conversationType,
                             id := conv.id,
                             owner := repoParts[0]?,
                             repo := repoParts[1]? },
            text := if jsTruthyStr activity.text then activity.text else none }

/-- `GithubAdapter.verifySignature`.  When a secret and raw body are
both truthy, the header is compared against
`'sha1=' + hmac_sha1_hex(secret, rawBody)` with
`crypto.timingSafeEqual(Buffer.from(header), Buffer.from(hash))`:
`Buffer.from(undefined)` throws a `TypeError`, `timingSafeEqual` throws
a `RangeError` when the two UTF-8 byte lengths differ, and otherwise
compares the byte sequences (equal iff the strings are equal, UTF-8
being injective).  On a mismatch the source sets HTTP status 401 and
returns `false`; the status write is a response side effect that does
not change the returned value. -/
def verifySignature (opts : GithubAdapterOptions) (req : Request) :
    Except JsErr Bool :=
  if jsTruthyStr opts.webhookSecret && jsTruthyStr req.rawBody then
    match req.xHubSignature with
    | none => .error .typeError
    | some messageHash =>
      let hash := "sha1=" ++
        hmacSha1Hex (opts.webhookSecret.getD "") (req.rawBody.getD "")
      if utf8ByteLen messageHash = utf8ByteLen hash then
        if messageHash = hash then .ok true else .ok false
      else
        .error .rangeError
  else
    .ok true

/-- Outcome of `GithubAdapter.processActivity`: the function either
returns early after a failed signature check (having set HTTP 401),
returns early because the comment author is the bot itself (no activity
is built and the bot-logic callback is never invoked), or builds an
activity, wraps it in a turn context and runs the middleware/bot-logic
pipeline on it. -/
inductive ProcessOutcome where
  | unverified
  | dropped
  | dispatched (a : Activity)
deriving DecidableEq, Repr

/-- `GithubAdapter.processActivity`.  `user` is the identity returned by
`getBotUserFromAPI()` (fetched from the API before the event switch and
cached on the adapter; the fetch itself is an external call and is taken
as a parameter here).  The `issue_comment` arm drops self-authored
comments and otherwise builds a message activity; every other event type
(including a missing `X-Github-Event` header) takes the default arm and
builds an event activity.  Dereferences of absent payload fields throw
`TypeError` exactly where the source would. -/
def processActivity (opts : GithubAdapterOptions) (user : Identity)
    (req : Request) : Except JsErr ProcessOutcome := do
  let ok ← verifySignature opts req
  if !ok then
    return .unverified
  let event := req.body
  let eventType := req.xGithubEvent
  if eventType == some "issue_comment" then
    match event.comment with
    | none => .error .typeError
    | some cmt =>
      if user.user_id == cmt.user.id then
        return .dropped
      match event.repository, event.issue with
      | some repo, some iss =>
        return .dispatched
          { type := .message,
            id := some (.num cmt.id),
            channelData := some event,
            channelId := some "github",
            fromUser := some { id := some cmt.user.login,
                               role := some (if cmt.user.type == "User"
                                             then .user else .bot) },
            conversation := some { isGroup := some true,
                                   conversationType := eventType,
                                   id := some (.num iss.number),
                                   repo := some repo.full_name },
            recipient := some { id := some user.login, role := some .bot },
            text := some cmt.body,
            label := eventType }
      | _, _ => .error .typeError
  else
    match event.repository with
    | none => .error .typeError
    | some repo =>
      match event.sender with
      | none => .error .typeError
      | some snd =>
        return .dispatched
          { type := .event,
            id := some (.str repo.full_name),
            channelData := some event,
            channelId := some "github",
            fromUser := some { id := some snd.login,
                               role := some (if snd.type == "User"
                                             then .user else .bot) },
            conversation := some { id := req.xGithubDelivery.map .str },
            recipient := some { id := none, role := none },
            text := none,
            label := eventType }

/-- Result of the `try` block body in `sendActivities`: either an
Octokit result, or the `'Unsupported target type [...]'` string the
default arm stores in `result`. -/
inductive SendResult where
  | api (r : OctokitResult)
  | unsupported (msg : String)
deriving DecidableEq, Repr

/-- The body of the `try` block in `sendActivities` for one message:
`await this.getAPI()` (throws on a missing token), the dereference
`message.target.type` (throws a `TypeError` when the activity had no
conversation), the three supported conversation types calling
`octokit.issues.createComment`, and the default arm producing the
unsupported-target string.  `api` gives the outcome of the REST call. -/
def sendTry (opts : GithubAdapterOptions) (st : AdapterState)
    (api : CreateCommentParams → Except JsErr OctokitResult)
    (message : GithubMessage) : Except JsErr SendResult := do
  let _ ← getAPI opts st
  match message.target with
  | none => .error .typeError
  | some t =>
    if t.type == some "issue_comment" || t.type == some "pull_request" ||
        t.type == some "issues" then
      (api { owner := t.owner, repo := t.repo, issue_number := t.id,
             body := message.text }).map .api
    else
      .ok (.unsupported ("Unsupported target type [" ++ jsStr t.type ++
        "] (must be one of [issue_comment,issues,pull_request])"))

/-- One iteration of the `sendActivities` loop.  Non-message activities
are only logged.  `activityToGithub` runs before the `try` block, so its
exceptions abort the whole batch (`.error`).  Inside the `try`, a thrown
error is caught and logged and yields no response record (`.ok none`);
a result with status `< 300` pushes `{id, activityId, conversation}`;
any other result (including the unsupported-target string, whose
`status` is `undefined` and `undefined < 300` is false) is logged and
yields no record. -/
def sendOne (opts : GithubAdapterOptions) (st : AdapterState)
    (api : CreateCommentParams → Except JsErr OctokitResult)
    (activity : Activity) : Except JsErr (Option ResourceResponse) :=
  if activity.type == .message then
    match activityToGithub activity with
    | .error e => .error e
    | .ok message =>
      match sendTry opts st api message with
      | .error _ => .ok none
      | .ok (.api res) =>
        if res.status < 300 then
          .ok (some { id := res.data.id, activityId := activity.id,
                      conversation := activity.conversation })
        else
          .ok none
      | .ok (.unsupported _) => .ok none
  else
    .ok none

/-- `GithubAdapter.sendActivities`: the loop over the batch, collecting
the response records of the iterations that pushed one. -/
def sendActivities (opts : GithubAdapterOptions) (st : AdapterState)
    (api : CreateCommentParams → Except JsErr OctokitResult) :
    List Activity → Except JsErr (List ResourceResponse)
  | [] => .ok []
  | activity :: rest => do
    let r ← sendOne opts st api activity
    let rs ← sendActivities opts st api rest
    match r with
    | some resp => .ok (resp :: rs)
    | none => .ok rs

/-- The body of the `try` block in `updateActivity`: `activityToGithub`,
`await this.getAPI()`, then `octokit.issues.updateComment` for an
`issue_comment` target (the default arm stores the unsupported-target
string, whose undefined `status` merely causes an error log). -/
def updateTry (opts : GithubAdapterOptions) (st : AdapterState)
    (api : UpdateCommentParams → Except JsErr OctokitResult)
    (activity : Activity) : Except JsErr Unit := do
  let message ← activityToGithub activity
  let _ ← getAPI opts st
  match message.target with
  | none => .error .typeError
  | some t =>
    if t.type == some "issue_comment" then
      let _ ← api { owner := t.owner, repo := t.repo,
                    comment_id := message.activityId, body := message.text }
      return ()
    else
      return ()

/-- `GithubAdapter.updateActivity`.  With a truthy `id` and a present
`conversation` the whole body runs inside `try { ... } catch (err) {
console.error(...) }`: every failure (API error included) is logged and
swallowed, and the method returns normally.  Without them it throws
`new Error('Cannot update activity: activity is missing id')`. -/
def updateActivity (opts : GithubAdapterOptions) (st : AdapterState)
    (api : UpdateCommentParams → Except JsErr OctokitResult)
    (activity : Activity) : Except JsErr Unit :=
  if jsTruthyId activity.id && activity.conversation.isSome then
    match updateTry opts st api activity with
    | .error _ => .ok ()
    | .ok _ => .ok ()
  else
    .error (.jsError "Cannot update activity: activity is missing id")

/-- The body of the `try` block in `deleteActivity`: `await
this.getAPI()`, `activityToGithub(context.activity)` (note: the turn's
activity, not the reference), then for an `issue_comment` target the
call `octokit.issues.deleteComment({...})` **without `await`**: the
returned promise is stored in `result`, its later rejection is never
observed by this function, and `result.status` is `undefined`, so the
subsequent `!(result.status < 300)` check always logs.  The discarded
`api` application records that the call is issued. -/
def deleteTry (opts : GithubAdapterOptions) (st : AdapterState)
    (api : DeleteCommentParams → Except JsErr OctokitResult)
    (contextActivity : Activity) (reference : ConversationReference) :
    Except JsErr Unit := do
  let _ ← getAPI opts st
  let message ← activityToGithub contextActivity
  match message.target with
  | none => .error .typeError
  | some t =>
    if t.type == some "issue_comment" then
      let _ := api { owner := t.owner, repo := t.repo,
                     comment_id := reference.activityId }
      return ()
    else
      return ()

/-- `GithubAdapter.deleteActivity`.  With a truthy `activityId` and a
present `conversation` the body runs inside `try { ... } catch (err) {
console.error(...); throw err; }`: an error the `try` block observes is
logged and re-thrown.  Because the `deleteComment` promise is not
awaited (see `deleteTry`), a failure of the REST call itself is never
observed here.  Without `activityId`/`conversation` it throws `new
Error('Cannot delete activity: reference is missing activityId')`. -/
def deleteActivity (opts : GithubAdapterOptions) (st : AdapterState)
    (api : DeleteCommentParams → Except JsErr OctokitResult)
    (contextActivity : Activity) (reference : ConversationReference) :
    Except JsErr Unit :=
  if jsTruthyId reference.activityId && reference.conversation.isSome then
    match deleteTry opts st api contextActivity reference with
    | .error e => .error e
    | .ok _ => .ok ()
  else
    .error (.jsError "Cannot delete activity: reference is missing activityId")

/-! ## GithubMessageTypeMiddleware (`github_adapter.ts`)

The classifier builds three patterns from the bot login:
`new RegExp('@' + login, 'i')`, `new RegExp('^@' + login, 'i')` and
`new RegExp('^\/\w+', 'i')`.  GitHub logins contain no regular
expression metacharacters, so the two mention patterns are literal
case-insensitive searches.  In the third pattern the JavaScript string
escapes `\/` and `\w` denote the plain characters `/` and `w`, so the
compiled pattern is `^/w+`: a leading slash followed by one or more of
the letter `w` (case-insensitively), not a leading slash followed by a
word. -/

/-- ASCII lower-casing of one character (the `i` regular-expression flag
as it acts on GitHub logins and message text). -/
def lowerChar (c : Char) : Char :=
  if c.toNat ≥ 65 && c.toNat ≤ 90 then Char.ofNat (c.toNat + 32) else c

/-- ASCII lower-casing of a character list. -/
def lowerChars (l : List Char) : List Char := l.map lowerChar

/-- Whether `pat` is a prefix of `l` (character lists). -/
def charsHavePre : List Char → List Char → Bool
  | [], _ => true
  | _ :: _, [] => false
  | p :: ps, c :: cs => p == c && charsHavePre ps cs

/-- Whether `pat` occurs inside `l` (character lists). -/
def charsContain : List Char → List Char → Bool
  | pat, [] => charsHavePre pat []
  | pat, c :: cs => charsHavePre pat (c :: cs) || charsContain pat cs

/-- `text.match(new RegExp('^@' + login, 'i'))`: case-insensitive
literal prefix match (ASCII case folding, as for GitHub logins). -/
def matchDirectMention (login text : String) : Bool :=
  charsHavePre (lowerChars ("@" ++ login).data) (lowerChars text.data)

/-- `text.match(new RegExp('@' + login, 'i'))`: case-insensitive
literal substring search. -/
def matchMention (login text : String) : Bool :=
  charsContain (lowerChars ("@" ++ login).data) (lowerChars text.data)

/-- `text.match(new RegExp('^\/\w+', 'i'))` — the compiled pattern is
`^/w+` (see the section comment): a leading `/` followed by at least one
`w` or `W`. -/
def matchSlashCommand (text : String) : Bool :=
  match text.data with
  | '/' :: c :: _ => c == 'w' || c == 'W'
  | _ => false

/-- JavaScript `\s` for the characters that occur here (ASCII whitespace
and NBSP; the remaining Unicode space code points are omitted, no input
in this development contains them). -/
def isJsSpace (c : Char) : Bool :=
  c == ' ' || c == '\t' || c == '\n' || c == '\r' ||
    c.toNat == 11 || c.toNat == 12 || c.toNat == 160

/-- `.replace(/^\s+/, '')`. -/
def stripLeadingSpaces (l : List Char) : List Char := l.dropWhile isJsSpace

/-- `.replace(/^:\s+/, '')`: a leading colon followed by at least one
whitespace character is removed together with that whitespace run. -/
def stripColonSpace : List Char → List Char
  | ':' :: c :: rest =>
    if isJsSpace c then (c :: rest).dropWhile isJsSpace else ':' :: c :: rest
  | l => l

/-- `text.replace(direct_mention, '').replace(/^\s+/, '')
.replace(/^:\s+/, '').replace(/^\s+/, '')`: the matched `@login` prefix
(1 + login-length characters) is removed, then the three anchored
replacements run left to right. -/
def stripDirectMention (login text : String) : String :=
  ⟨stripLeadingSpaces (stripColonSpace (stripLeadingSpaces
    (text.data.drop (1 + login.length))))⟩

/-- `text.replace(/^\//, '')`: remove one leading slash. -/
def stripSlash (text : String) : String :=
  match text.data with
  | '/' :: rest => ⟨rest⟩
  | l => ⟨l⟩

/-- `GithubMessageTypeMiddleware.onTurn`.  `bot` is the identity
returned by `adapter.getBotUserFromAPI()`.  Applies only to message
activities with a (truthy) `channelData`; the three pattern branches
annotate `channelData.botkitEventType` and may rewrite `text` and
`type`; otherwise the activity is left unchanged ("ambient"). -/
def GithubMessageTypeMiddleware.onTurn (bot : Identity)
    (activity : Activity) : Activity :=
  match activity.channelData with
  | none => activity
  | some chan =>
    if activity.type == .message then
      let text := activity.text
      if bot.login != "" && jsTruthyStr text &&
          matchDirectMention bot.login (text.getD "") then
        { activity with
          channelData := some { chan with
            botkitEventType := some "direct_mention" },
          text := some (stripDirectMention bot.login (text.getD "")) }
      else if bot.login != "" && jsTruthyStr text &&
          matchMention bot.login (text.getD "") then
        { activity with
          channelData := some { chan with botkitEventType := some "mention" } }
      else if jsTruthyStr text && matchSlashCommand (text.getD "") then
        { activity with
          channelData := some { chan with
            botkitEventType := some "slash_command" },
          type := .event,
          text := some (stripSlash (text.getD "")) }
      else
        activity
    else
      activity

/-! ## GithubEventTypeMiddleware (`eventtype_middleware.ts`) -/

/-- The composite tag the event-type middleware computes:
`eventType + '_' + action` when `channelData.action` is truthy,
`eventType` otherwise. -/
def eventTag (label : String) (chan : WebhookPayload) : String :=
  if jsTruthyStr chan.action then label ++ "_" ++ chan.action.getD ""
  else label

/-- `GithubEventTypeMiddleware.onTurn`.  Applies to event activities
with a truthy `label` and a `channelData` not already tagged
`slash_command`; writes the composite tag, and for `pull_request` /
`issues` events back-fills the conversation from
`channelData.number` / `channelData.issue.number` and
`channelData.repository.full_name` (throwing a `TypeError` where the
source would dereference an absent object). -/
def GithubEventTypeMiddleware.onTurn (activity : Activity) :
    Except JsErr Activity :=
  match activity.channelData with
  | none => .ok activity
  | some chan =>
    if activity.type == .event && jsTruthyStr activity.label &&
        chan.botkitEventType != some "slash_command" then
      let eventType := activity.label.getD ""
      let a1 := { activity with
        channelData := some { chan with
          botkitEventType := some (eventTag eventType chan) } }
      if eventType == "pull_request" then
        match a1.conversation with
        | none => .error .typeError
        | some conv =>
          match chan.repository with
          | none => .error .typeError
          | some repo =>
            .ok { a1 with conversation := some { conv with
              isGroup := some true,
              conversationType := some eventType,
              id := chan.number.map JsId.num,
              repo := some repo.full_name } }
      else if eventType == "issues" then
        match a1.conversation with
        | none => .error .typeError
        | some conv =>
          match chan.issue with
          | none => .error .typeError
          | some iss =>
            match chan.repository with
            | none => .error .typeError
            | some repo =>
              .ok { a1 with conversation := some { conv with
                isGroup := some true,
                conversationType := some eventType,
                id := some (.num iss.number),
                repo := some repo.full_name } }
      else
        .ok a1
    else
      .ok activity

/-! ## Helper lemmas

Structural facts about the digest computation (the hex digest of
HMAC-SHA1 is always 40 ASCII characters, 45 UTF-8 bytes with the
`sha1=` prefix), used to reason about the length guard of
`crypto.timingSafeEqual` without evaluating a hash. -/

theorem natToBytesBE_length (k : Nat) : ∀ n, (natToBytesBE k n).length = k := by
  induction k with
  | zero => intro n; rfl
  | succ k ih => intro n; simp [natToBytesBE, ih]

theorem natToBytesBE_mem_lt (k : Nat) :
    ∀ n b, b ∈ natToBytesBE k n → b < 256 := by
  induction k with
  | zero => intro n b hb; simp [natToBytesBE] at hb
  | succ k ih =>
    intro n b hb
    simp only [natToBytesBE, List.mem_append, List.mem_singleton] at hb
    rcases hb with hb | hb
    · exact ih _ _ hb
    · subst hb; exact Nat.mod_lt _ (by norm_num)

theorem sha1Bytes_length (m : List Nat) : (sha1Bytes m).length = 20 := by
  simp [sha1Bytes, natToBytesBE_length]

theorem sha1Bytes_mem_lt (m : List Nat) :
    ∀ b ∈ sha1Bytes m, b < 256 := by
  intro b hb
  simp only [sha1Bytes, List.mem_append] at hb
  rcases hb with ((((h | h) | h) | h) | h) <;> exact natToBytesBE_mem_lt _ _ _ h

theorem hexDigit_toNat_lt : ∀ n < 16, (hexDigit n).toNat < 128 := by decide

theorem charUtf8Bytes_ascii (c : Char) (h : c.toNat < 128) :
    charUtf8Bytes c = [c.toNat] := by
  simp [charUtf8Bytes, h]

theorem strUtf8_hex_length (bs : List Nat) (h : ∀ b ∈ bs, b < 256) :
    utf8ByteLen (bytesToHex bs) = 2 * bs.length := by
  induction bs with
  | nil => rfl
  | cons b bs ih =>
    have hb : b < 256 := h b (List.mem_cons_self _ _)
    have h16a : b / 16 < 16 := Nat.div_lt_of_lt_mul (by omega)
    have h16b : b % 16 < 16 := Nat.mod_lt _ (by norm_num)
    have ih' := ih (fun x hx => h x (List.mem_cons_of_mem _ hx))
    simp only [utf8ByteLen, bytesToHex, strUtf8, List.foldr] at ih' ⊢
    rw [charUtf8Bytes_ascii _ (hexDigit_toNat_lt _ h16a),
        charUtf8Bytes_ascii _ (hexDigit_toNat_lt _ h16b)]
    simp only [List.length_append, List.length_cons, List.length_nil,
      List.singleton_append, List.length_cons] at ih' ⊢
    omega

theorem strUtf8_append (a b : String) :
    strUtf8 (a ++ b) = strUtf8 a ++ strUtf8 b := by
  have key : ∀ (l : List Char) (x : List Nat),
      l.foldr (fun c acc => charUtf8Bytes c ++ acc) x =
      l.foldr (fun c acc => charUtf8Bytes c ++ acc) [] ++ x := by
    intro l
    induction l with
    | nil => intro x; simp
    | cons c cs ih =>
      intro x
      simp only [List.foldr_cons]
      rw [ih, List.append_assoc]
  simp only [strUtf8, String.data_append, List.foldr_append]
  rw [key]

theorem utf8ByteLen_append (a b : String) :
    utf8ByteLen (a ++ b) = utf8ByteLen a + utf8ByteLen b := by
  simp [utf8ByteLen, strUtf8_append]

theorem utf8ByteLen_hash (secret body : String) :
    utf8ByteLen ("sha1=" ++ hmacSha1Hex secret body) = 45 := by
  rw [utf8ByteLen_append]
  have h1 : utf8ByteLen "sha1=" = 5 := by decide
  have h2 : utf8ByteLen (hmacSha1Hex secret body) = 40 := by
    unfold hmacSha1Hex hmacSha1Bytes
    rw [strUtf8_hex_length _ (sha1Bytes_mem_lt _), sha1Bytes_length]
  omega

/-- C9: when no webhook secret is configured, `verifySignature` returns
`true` for every request, regardless of the request body and of the
presence or value of the signature header. -/
theorem verifySignature_noSecret (opts : GithubAdapterOptions) (req : Request)
    (h : opts.webhookSecret = none) : verifySignature opts req = .ok true := by
  simp [verifySignature, h, jsTruthyStr]

/-- Witness for C9: a concrete request with a body and a junk signature
header still verifies when the adapter has no secret. -/
theorem verifySignature_noSecret_witness :
    verifySignature { webhookSecret := none, githubToken := some "t" }
      { rawBody := some "body", xHubSignature := some "sha1=junk" } = .ok true :=
  verifySignature_noSecret _ _ rfl

/-- C10: even with a webhook secret configured, `verifySignature`
returns `true` for every request whose `rawBody` is absent or empty, so
such requests are processed as if authenticated. -/
theorem verifySignature_noRawBody (opts : GithubAdapterOptions) (req : Request)
    (h : req.rawBody = none ∨ req.rawBody = some "") :
    verifySignature opts req = .ok true := by
  rcases h with h | h <;> simp [verifySignature, h, jsTruthyStr]

/-- Witness for C10: with a secret configured, a request with no raw
body (or an empty one) passes verification unconditionally. -/
theorem verifySignature_noRawBody_witness :
    verifySignature { webhookSecret := some "secret" }
      { rawBody := none, xHubSignature := some "sha1=junk" } = .ok true ∧
    verifySignature { webhookSecret := some "secret" }
      { rawBody := some "", xHubSignature := none } = .ok true :=
  ⟨verifySignature_noRawBody _ _ (Or.inl rfl),
   verifySignature_noRawBody _ _ (Or.inr rfl)⟩

/-- C1 (amended): with a configured secret and a non-empty raw body,
`verifySignature` returns `true` when the `X-Hub-Signature` header
equals `'sha1=' + hex(HMAC-SHA1(secret, body))`; it returns `false`
(without throwing) for every other header value of the same UTF-8 byte
length; and for a header whose byte length differs from the computed
digest string it throws (`crypto.timingSafeEqual` raises a
`RangeError`), rather than returning `false`. -/
theorem verifySignature_spec (opts : GithubAdapterOptions) (req : Request)
    (secret body header : String)
    (hsec : opts.webhookSecret = some secret) (hs : secret ≠ "")
    (hraw : req.rawBody = some body) (hb : body ≠ "")
    (hhdr : req.xHubSignature = some header) :
    (header = "sha1=" ++ hmacSha1Hex secret body →
      verifySignature opts req = .ok true) ∧
    (header ≠ "sha1=" ++ hmacSha1Hex secret body →
      utf8ByteLen header = utf8ByteLen ("sha1=" ++ hmacSha1Hex secret body) →
      verifySignature opts req = .ok false) ∧
    (utf8ByteLen header ≠ utf8ByteLen ("sha1=" ++ hmacSha1Hex secret body) →
      verifySignature opts req = .error .rangeError) := by
  have hv : verifySignature opts req =
      if utf8ByteLen header = utf8ByteLen ("sha1=" ++ hmacSha1Hex secret body)
      then (if header = "sha1=" ++ hmacSha1Hex secret body
            then .ok true else .ok false)
      else .error .rangeError := by
    simp [verifySignature, hsec, hraw, hhdr, jsTruthyStr, hs, hb]
  refine ⟨fun h => ?_, fun hne hlen => ?_, fun hne => ?_⟩
  · rw [hv, if_pos (by rw [h]), if_pos h]
  · rw [hv, if_pos hlen, if_neg hne]
  · rw [hv, if_neg hne]

set_option maxRecDepth 100000 in
/-- Witness for C1: the correct digest for secret `"k"` and body `"d"`
verifies, and an equal-length wrong digest is rejected with `false`. -/
theorem verifySignature_spec_witness :
    verifySignature { webhookSecret := some "k" }
      { rawBody := some "d",
        xHubSignature := some ("sha1=" ++ hmacSha1Hex "k" "d") } = .ok true ∧
    verifySignature { webhookSecret := some "k" }
      { rawBody := some "d",
        xHubSignature :=
          some "sha1=0000000000000000000000000000000000000000" } = .ok false :=
  ⟨(verifySignature_spec _ _ "k" "d" _ rfl (by decide) rfl (by decide) rfl).1 rfl,
   (verifySignature_spec _ _ "k" "d" _ rfl (by decide) rfl (by decide) rfl).2.1
     (by decide) (by rw [utf8ByteLen_hash]; decide)⟩

/-- Counterexample for C1 as stated: for secret `"s"`, body `"b"` and
header value `"x"` (whose byte length differs from the 45-byte computed
digest string), `verifySignature` throws a `RangeError` instead of
returning `false`. -/
theorem verifySignature_counterexample :
    verifySignature { webhookSecret := some "s" }
      { rawBody := some "b", xHubSignature := some "x" } =
      .error .rangeError ∧
    verifySignature { webhookSecret := some "s" }
      { rawBody := some "b", xHubSignature := some "x" } ≠ .ok false := by
  have hv : utf8ByteLen ("sha1=" ++ hmacSha1Hex "s" "b") = 45 :=
    utf8ByteLen_hash _ _
  have hx : utf8ByteLen "x" = 1 := by decide
  have h1 : verifySignature { webhookSecret := some "s" }
      { rawBody := some "b", xHubSignature := some "x" } =
      .error .rangeError := by
    simp [verifySignature, jsTruthyStr, hv, hx]
  exact ⟨h1, by rw [h1]; simp⟩

/-- C2: for every inbound `issue_comment` webhook whose
`comment.user.id` equals the cached bot identity's user id,
`processActivity` returns with outcome `dropped`: no activity is
constructed and the bot-logic callback is never invoked. -/
theorem processActivity_drops_self (opts : GithubAdapterOptions)
    (user : Identity) (req : Request) (cmt : Comment)
    (hver : verifySignature opts req = .ok true)
    (hev : req.xGithubEvent = some "issue_comment")
    (hcmt : req.body.comment = some cmt)
    (hid : cmt.user.id = user.user_id) :
    processActivity opts user req = .ok .dropped := by
  simp [processActivity, hver, hev, hcmt, hid]
  rfl

/-- Witness for C2: a comment authored by the bot account itself
(user id 7) is silently dropped. -/
theorem processActivity_drops_self_witness :
    processActivity { webhookSecret := none, githubToken := some "t" }
      ⟨7, "mybot"⟩
      { body := { comment := some ⟨10, "hello", "2020", ⟨7, "mybot", "Bot"⟩⟩,
                  issue := some ⟨42⟩, repository := some ⟨"o/r"⟩ },
        xGithubEvent := some "issue_comment" } = .ok .dropped :=
  processActivity_drops_self _ _ _ _ rfl rfl rfl rfl

/-- C3: for every inbound `issue_comment` webhook with
`issue.number = 42`, `repository.full_name = "o/r"` and
`comment.body = "hello"` (not authored by the bot), `processActivity`
dispatches a message activity with conversation
`{isGroup := true, conversationType := "issue_comment", id := 42,
repo := "o/r"}`, text `"hello"`, sender id the comment author's login,
and label `"issue_comment"`. -/
theorem processActivity_issueComment (opts : GithubAdapterOptions)
    (user : Identity) (req : Request) (cmt : Comment) (iss : Issue)
    (repo : Repository)
    (hver : verifySignature opts req = .ok true)
    (hev : req.xGithubEvent = some "issue_comment")
    (hcmt : req.body.comment = some cmt)
    (hiss : req.body.issue = some iss)
    (hrepo : req.body.repository = some repo)
    (hnum : iss.number = 42) (hname : repo.full_name = "o/r")
    (hbody : cmt.body = "hello")
    (hne : user.user_id ≠ cmt.user.id) :
    processActivity opts user req = .ok (.dispatched
      { type := .message,
        id := some (.num cmt.id),
        channelData := some req.body,
        channelId := some "github",
        fromUser := some { id := some cmt.user.login,
                           role := some (if cmt.user.type == "User"
                                         then .user else .bot) },
        conversation := some { isGroup := some true,
                               conversationType := some "issue_comment",
                               id := some (.num 42),
                               repo := some "o/r" },
        recipient := some { id := some user.login, role := some .bot },
        text := some "hello",
        label := some "issue_comment" }) := by
  have hbeq : (user.user_id == cmt.user.id) = false :=
    beq_eq_false_iff_ne.mpr hne
  simp [processActivity, hver, hev, hcmt, hiss, hrepo, hnum, hname, hbody, hbeq]
  rfl

/-- Witness for C3: the activity built for a concrete comment by
`"alice"` on issue 42 of `"o/r"`. -/
theorem processActivity_issueComment_witness :
    processActivity { webhookSecret := none, githubToken := some "t" }
      ⟨7, "mybot"⟩
      { body := { comment := some ⟨10, "hello", "2020", ⟨8, "alice", "User"⟩⟩,
                  issue := some ⟨42⟩, repository := some ⟨"o/r"⟩ },
        xGithubEvent := some "issue_comment" } = .ok (.dispatched
      { type := .message,
        id := some (.num 10),
        channelData := some { comment := some ⟨10, "hello", "2020", ⟨8, "alice", "User"⟩⟩,
                              issue := some ⟨42⟩, repository := some ⟨"o/r"⟩ },
        channelId := some "github",
        fromUser := some { id := some "alice", role := some .user },
        conversation := some { isGroup := some true,
                               conversationType := some "issue_comment",
                               id := some (.num 42),
                               repo := some "o/r" },
        recipient := some { id := some "mybot", role := some .bot },
        text := some "hello",
        label := some "issue_comment" }) :=
  processActivity_issueComment
    { webhookSecret := none, githubToken := some "t" } ⟨7, "mybot"⟩
    { body := { comment := some ⟨10, "hello", "2020", ⟨8, "alice", "User"⟩⟩,
                issue := some ⟨42⟩, repository := some ⟨"o/r"⟩ },
      xGithubEvent := some "issue_comment" }
    ⟨10, "hello", "2020", ⟨8, "alice", "User"⟩⟩ ⟨42⟩ ⟨"o/r"⟩
    rfl rfl rfl rfl rfl rfl rfl rfl (by decide)

/-- C4: evaluation showing the slash-command classifier as compiled.
The pattern string `'^\/\w+'` denotes `^/w+`, so the text `"/release"`
matches neither mention pattern nor the slash pattern and the activity
is left unchanged (no `slash_command` tag, still message-kind, text not
rewritten), while a text of the form `"/www"` is tagged
`slash_command`, converted to event-kind and stripped of its slash. -/
theorem messageTypeOnTurn_slash_eval :
    GithubMessageTypeMiddleware.onTurn ⟨7, "mybot"⟩
      { type := .message, channelData := some {}, text := some "/release" } =
      { type := .message, channelData := some {}, text := some "/release" } ∧
    GithubMessageTypeMiddleware.onTurn ⟨7, "mybot"⟩
      { type := .message, channelData := some {}, text := some "/www" } =
      { type := .event,
        channelData := some { botkitEventType := some "slash_command" },
        text := some "www" } := by
  constructor <;> rfl

/-- C6: evaluation of the update/delete error paths at a failing API.
`updateActivity` swallows the API failure and returns normally.
`deleteActivity` also returns normally on an API failure: the
`deleteComment` call is not awaited, so its failure is never observed
by the surrounding `try`/`catch` and is not re-raised to the caller
(contrary to the claim's second half). -/
theorem updateDelete_errorHandling_eval :
    updateActivity { githubToken := some "t" } {}
      (fun _ => .error (.jsError "api failure"))
      { type := .message, id := some (.num 5),
        conversation := some { conversationType := some "issue_comment",
                               id := some (.num 1), repo := some "o/r" },
        text := some "new text" } = .ok () ∧
    deleteActivity { githubToken := some "t" } {}
      (fun _ => .error (.jsError "api failure"))
      { type := .message,
        conversation := some { conversationType := some "issue_comment",
                               id := some (.num 1), repo := some "o/r" } }
      { activityId := some (.num 5), conversation := some {} } = .ok () :=
  ⟨rfl, rfl⟩

/-- C8: evaluation of `getAPI`.  A successful call returns the adapter
state unchanged — `this.octokit` is never assigned, so the cache stays
empty and every subsequent call constructs a fresh client rather than
returning a cached instance.  The missing-token half of the claim
holds: without a token `getAPI` fails with `'Missing api token.'`. -/
theorem getAPI_eval :
    getAPI { githubToken := some "t" } {} =
      .ok ({ auth := "t", userAgent := "Botkit" }, { octokit := none }) ∧
    getAPI { githubToken := none } {} =
      .error (.jsError "Missing api token.") :=
  ⟨rfl, rfl⟩

/-- C5: in a `sendActivities` batch, each activity is attempted
independently.  A message whose API call fails or returns status
`>= 300` contributes no response record, a send with status `< 300`
contributes `{id, activityId, conversation}`, and a failing first send
does not prevent the second from being attempted: the two-activity
batch returns exactly the record of the second activity. -/
theorem sendActivities_partial_success
    (opts : GithubAdapterOptions) (st : AdapterState)
    (api : CreateCommentParams → Except JsErr OctokitResult)
    (a1 a2 : Activity) (m1 m2 : GithubMessage) (t1 t2 : GithubTarget)
    (res2 : OctokitResult)
    (h1 : a1.type = .message) (h2 : activityToGithub a1 = .ok m1)
    (h3 : m1.target = some t1)
    (h4 : t1.type = some "issue_comment" ∨ t1.type = some "pull_request" ∨
          t1.type = some "issues")
    (hget : ∃ c, getAPI opts st = .ok c)
    (hfail : (∃ e, api { owner := t1.owner, repo := t1.repo,
                         issue_number := t1.id, body := m1.text } = .error e) ∨
             (∃ r1, api { owner := t1.owner, repo := t1.repo,
                          issue_number := t1.id, body := m1.text } = .ok r1 ∧
                    300 ≤ r1.status))
    (h5 : a2.type = .message) (h6 : activityToGithub a2 = .ok m2)
    (h7 : m2.target = some t2)
    (h8 : t2.type = some "issue_comment" ∨ t2.type = some "pull_request" ∨
          t2.type = some "issues")
    (hsucc : api { owner := t2.owner, repo := t2.repo,
                   issue_number := t2.id, body := m2.text } = .ok res2)
    (hlt : res2.status < 300) :
    sendActivities opts st api [a1, a2] =
      .ok [{ id := res2.data.id, activityId := a2.id,
             conversation := a2.conversation }] := by
  obtain ⟨c, hc⟩ := hget
  have hcond1 : (t1.type == some "issue_comment" ||
      t1.type == some "pull_request" || t1.type == some "issues") = true := by
    rcases h4 with h | h | h <;> simp [h]
  have hcond2 : (t2.type == some "issue_comment" ||
      t2.type == some "pull_request" || t2.type == some "issues") = true := by
    rcases h8 with h | h | h <;> simp [h]
  have hone1 : sendOne opts st api a1 = .ok none := by
    rcases hfail with ⟨e, he⟩ | ⟨r1, hr1, hge⟩
    · simp [sendOne, sendTry, h1, h2, h3, hcond1, hc, he, Except.map,
        Bind.bind, Except.bind]
    · simp [sendOne, sendTry, h1, h2, h3, hcond1, hc, hr1, Except.map,
        Bind.bind, Except.bind, Nat.not_lt.mpr hge]
  have hone2 : sendOne opts st api a2 =
      .ok (some { id := res2.data.id, activityId := a2.id,
                  conversation := a2.conversation }) := by
    simp [sendOne, sendTry, h5, h6, h7, hcond2, hc, hsucc, Except.map,
      Bind.bind, Except.bind, hlt]
  simp [sendActivities, hone1, hone2, Bind.bind, Except.bind]

/-- Witness for C5: a concrete two-activity batch where the API fails
on issue 1 and succeeds with status 201 / comment id 99 on issue 2. -/
theorem sendActivities_partial_success_witness :
    sendActivities { githubToken := some "t" } {}
      (fun p => if p.issue_number == some (.num 1)
                then .error (.jsError "boom") else .ok ⟨201, ⟨99⟩⟩)
      [ { type := .message, id := some (.num 11),
          conversation := some { conversationType := some "issue_comment",
                                 id := some (.num 1), repo := some "o/r" },
          text := some "a" },
        { type := .message, id := some (.num 12),
          conversation := some { conversationType := some "issue_comment",
                                 id := some (.num 2), repo := some "o/r" },
          text := some "b" } ] =
      .ok [{ id := 99, activityId := some (.num 12),
             conversation := some { conversationType := some "issue_comment",
                                    id := some (.num 2),
                                    repo := some "o/r" } }] := by
  exact sendActivities_partial_success _ _ _ _ _
    { activityId := some (.num 11),
      target := some { type := some "issue_comment", id := some (.num 1),
                       owner := some "o", repo := some "r" },
      text := some "a" }
    { activityId := some (.num 12),
      target := some { type := some "issue_comment", id := some (.num 2),
                       owner := some "o", repo := some "r" },
      text := some "b" }
    { type := some "issue_comment", id := some (.num 1),
      owner := some "o", repo := some "r" }
    { type := some "issue_comment", id := some (.num 2),
      owner := some "o", repo := some "r" }
    ⟨201, ⟨99⟩⟩
    rfl rfl rfl (Or.inl rfl) ⟨_, rfl⟩ (Or.inl ⟨.jsError "boom", rfl⟩)
    rfl rfl rfl (Or.inl rfl) rfl (by decide)

/-- Counterexample for C7 as stated: a payload that has an `action`
field holding the empty string is treated as having no action (the
source tests JavaScript truthiness, not presence), so the tag is the
bare event type `"push"`, not `"push" ++ "_" ++ ""`. -/
theorem eventTypeOnTurn_counterexample :
    GithubEventTypeMiddleware.onTurn
      { type := .event, label := some "push",
        channelData := some { action := some "" },
        conversation := some {} } =
      .ok { type := .event, label := some "push",
            channelData := some { action := some "",
                                  botkitEventType := some "push" },
            conversation := some {} } ∧
    ("push" : String) ≠ "push" ++ "_" ++ "" := by
  exact ⟨rfl, by decide⟩

/-- C7 (amended): for every event-kind activity with a label and not
already tagged `slash_command`, the event-type tagger sets the tag to
`<event_type>_<action>` when the payload has a non-empty `action` field
and to `<event_type>` when the action field is absent or empty; for a
`pull_request` event the conversation reference is back-filled with
`{isGroup := true, conversationType := "pull_request",
id := channelData.number, repo := channelData.repository.full_name}`. -/
theorem eventTypeOnTurn_spec (a : Activity) (chan : WebhookPayload)
    (label : String)
    (h1 : a.type = .event) (h2 : a.label = some label) (h3 : label ≠ "")
    (h4 : a.channelData = some chan)
    (h5 : chan.botkitEventType ≠ some "slash_command") :
    (∀ act, chan.action = some act → act ≠ "" →
      eventTag label chan = label ++ "_" ++ act) ∧
    ((chan.action = none ∨ chan.action = some "") →
      eventTag label chan = label) ∧
    (∀ a', GithubEventTypeMiddleware.onTurn a = .ok a' →
      a'.channelData = some { chan with
        botkitEventType := some (eventTag label chan) }) ∧
    (∀ conv repo, label = "pull_request" → a.conversation = some conv →
      chan.repository = some repo →
      GithubEventTypeMiddleware.onTurn a = .ok { a with
        channelData := some { chan with
          botkitEventType := some (eventTag label chan) },
        conversation := some { conv with
          isGroup := some true,
          conversationType := some "pull_request",
          id := chan.number.map JsId.num,
          repo := some repo.full_name } }) := by
  have hcond : (a.type == ActivityType.event && jsTruthyStr a.label &&
      (chan.botkitEventType != some "slash_command")) = true := by
    simp [h1, h2, jsTruthyStr, h3, bne, h5]
  refine ⟨fun act ha hane => ?_, fun h => ?_, fun a' h => ?_,
    fun conv repo hl hc hr => ?_⟩
  · simp [eventTag, jsTruthyStr, ha, hane]
  · rcases h with h | h <;> simp [eventTag, jsTruthyStr, h]
  · rw [GithubEventTypeMiddleware.onTurn, h4] at h
    simp only [hcond, if_true] at h
    rw [h2] at h
    simp only [Option.getD_some] at h
    by_cases hpr : label = "pull_request"
    · rw [if_pos (by simp [hpr])] at h
      rcases hconv : a.conversation with _ | conv <;> rw [hconv] at h
      · simp at h
      · rcases hrep : chan.repository with _ | repo <;> rw [hrep] at h
        · simp at h
        · simp only [Except.ok.injEq] at h
          subst h
          simp [eventTag]
    · rw [if_neg (by simp [hpr])] at h
      by_cases his : label = "issues"
      · rw [if_pos (by simp [his])] at h
        rcases hconv : a.conversation with _ | conv <;> rw [hconv] at h
        · simp at h
        · rcases hiss : chan.issue with _ | iss <;> rw [hiss] at h
          · simp at h
          · rcases hrep : chan.repository with _ | repo <;> rw [hrep] at h
            · simp at h
            · simp only [Except.ok.injEq] at h
              subst h
              simp [eventTag]
      · rw [if_neg (by simp [his])] at h
        simp only [Except.ok.injEq] at h
        subst h
        simp [eventTag]
  · subst hl
    rw [GithubEventTypeMiddleware.onTurn, h4]
    simp only [hcond, if_true]
    rw [h2]
    simp only [Option.getD_some]
    rw [if_pos (by simp), hc, hr]

/-- Witness for C7: a concrete `pull_request` event with action
`"opened"` gets tag `"pull_request_opened"` and the back-filled
conversation reference. -/
theorem eventTypeOnTurn_spec_witness :
    eventTag "pull_request"
      { action := some "opened", number := some 7,
        repository := some ⟨"o/r"⟩ } = "pull_request_opened" ∧
    GithubEventTypeMiddleware.onTurn
      { type := .event, label := some "pull_request",
        channelData := some { action := some "opened", number := some 7,
                              repository := some ⟨"o/r"⟩ },
        conversation := some { id := some (.str "guid") } } =
      .ok { type := .event, label := some "pull_request",
            channelData := some { action := some "opened", number := some 7,
                                  repository := some ⟨"o/r"⟩,
                                  botkitEventType :=
                                    some "pull_request_opened" },
            conversation := some { isGroup := some true,
                                   conversationType := some "pull_request",
                                   id := some (.num 7),
                                   repo := some "o/r" } } := by
  constructor
  · exact (eventTypeOnTurn_spec
      { type := .event, label := some "pull_request",
        channelData := some { action := some "opened", number := some 7,
                              repository := some ⟨"o/r"⟩ },
        conversation := some { id := some (.str "guid") } }
      { action := some "opened", number := some 7, repository := some ⟨"o/r"⟩ }
      "pull_request" rfl rfl (by decide) rfl (by decide)).1
      "opened" rfl (by decide)
  · exact (eventTypeOnTurn_spec
      { type := .event, label := some "pull_request",
        channelData := some { action := some "opened", number := some 7,
                              repository := some ⟨"o/r"⟩ },
        conversation := some { id := some (.str "guid") } }
      { action := some "opened", number := some 7, repository := some ⟨"o/r"⟩ }
      "pull_request" rfl rfl (by decide) rfl (by decide)).2.2.2
      { id := some (.str "guid") } ⟨"o/r"⟩ rfl rfl rfl
